import Mathlib

/-!
Verification of the psqlchunks core: the chunk execution engine (src/db.cc) and the
filter predicate system (src/filter.cc), shallowly embedded in Lean.

The embedding models the libpq connection as an environment describing the outcomes
the database reports (result status, error fields, statement position, cancellation
outcomes); the engine's own control flow, state updates and string handling are
translated directly from the C++ source. Thrown `DbException`s are modelled with
`Except`; SQL statements sent over the connection are collected in an `issued` list
and log output relevant to the claims in a `logs` list.
-/

namespace PsqlChunks

/- String and character constants of the source, named so they can be reused in
statements. -/

def commaChar : Char := ','

def newlineChar : Char := Char.ofNat 10

def emptyStr : String := ""

def sqlBegin : String := "begin;"

def sqlSavepoint : String := "savepoint chunk;"

def sqlRollbackSavepoint : String := "rollback to savepoint chunk;"

def sqlReleaseSavepoint : String := "release savepoint chunk;"

def sqlCommit : String := "commit;"

def sqlRollback : String := "rollback;"

def msgLostConnection : String := "lost db connection"

def msgPQExecFailed : String := "PQExec failed"

def logPosBeyond : String := "PG_DIAG_STATEMENT_POSITION is beyond the length of sql string"

def logEmptyPos : String := "got an empty PG_DIAG_STATEMENT_POSITION"

def msgNoLinenumbers : String := "No linenumbers given."

def msgNotANumberPrefix : String := "Not a number: "

def couldNotExecutePrefix : String := "could not execute query \""

def couldNotExecuteMid : String := "\": "

/-- The struct timeval of sys/time.h: independent seconds and microseconds fields
(C integer types, modelled as unbounded Int; the values involved are far from any
overflow boundary). -/
structure Timeval where
  tv_sec : Int
  tv_usec : Int
deriving DecidableEq

/-- timeval_subtract (db.cc lines 17-35). `x` is the minuend (end time), `y` the
subtrahend (start time); the C function mutates its `y` argument locally, modelled
here by rebinding. Returns the result struct and the bool return value. C `/` on
int truncates toward zero, hence `Int.tdiv`; every division the function performs
is on a non-negative numerator, where all division conventions agree. -/
def timeval_subtract (x y : Timeval) : Timeval × Bool :=
  let y1 :=
    if x.tv_usec < y.tv_usec then
      let nsec := Int.tdiv (y.tv_usec - x.tv_usec) 1000000 + 1
      Timeval.mk (y.tv_sec + nsec) (y.tv_usec - 1000000 * nsec)
    else y
  let y2 :=
    if x.tv_usec - y1.tv_usec > 1000000 then
      let nsec := Int.tdiv (x.tv_usec - y1.tv_usec) 1000000
      Timeval.mk (y1.tv_sec - nsec) (y1.tv_usec + 1000000 * nsec)
    else y1
  (Timeval.mk (x.tv_sec - y2.tv_sec) (x.tv_usec - y2.tv_usec), decide (x.tv_sec < y2.tv_sec))

/-- The Diagnostics status enum: NotRun, Ok, Fail. -/
inductive Diagnostics.Status
  | NotRun
  | Ok
  | Fail
deriving DecidableEq

/-- Per-chunk Diagnostics. `error_line = none` models the LINE_NUMBER_NOT_AVAILABLE
sentinel (the header declaring the sentinel constant is not among the sources; only
the distinction available/not-available is observable). -/
structure Diagnostics where
  status : Diagnostics.Status
  runtime : Timeval
  error_line : Option Nat
  sqlstate : String
  msg_primary : String
  msg_detail : String
  msg_hint : String
deriving DecidableEq

/-- A Chunk: source line range, SQL text, description and its diagnostics. -/
structure Chunk where
  start_line : Nat
  end_line : Nat
  sql : String
  description : String
  diagnostics : Diagnostics
deriving DecidableEq

/- ------------------------------------------------------------------ -/
/- Filter system (filter.cc)                                           -/
/- ------------------------------------------------------------------ -/

/-- LineFilter::match (filter.cc lines 71-80): true iff some stored line number n
satisfies start_line <= n and end_line >= n. The C++ member name is `match`, a Lean
keyword, hence `matchChunk`. -/
def LineFilter.matchChunk (linenumbers : List Nat) (chunk : Chunk) : Bool :=
  linenumbers.any (fun n => decide (chunk.start_line ≤ n) && decide (chunk.end_line ≥ n))

/-- RegexFilter::matchString (filter.cc lines 83-87): stubbed in the source
(`return true; // TODO`). -/
def RegexFilter.matchString (str : String) : Bool :=
  true

/-- RegexFilter::setParams (filter.cc lines 89-93): stubbed in the source, always
reports success and stores nothing. -/
def RegexFilter.setParams (params : String) : Bool :=
  true

/-- DescriptionRegexFilter::match (filter.cc lines 95-100). -/
def DescriptionRegexFilter.matchChunk (chunk : Chunk) : Bool :=
  RegexFilter.matchString chunk.description

/-- ContentRegexFilter::match (filter.cc lines 103-108). -/
def ContentRegexFilter.matchChunk (chunk : Chunk) : Bool :=
  RegexFilter.matchString chunk.sql

/-- Splits a character list at every comma, keeping empty segments (the plain
split underlying the getline loop). -/
def splitAtCommas : List Char → List (List Char)
  | [] => [[]]
  | c :: rest =>
    match splitAtCommas rest with
    | [] => [[c]]
    | t :: ts => if c = commaChar then [] :: t :: ts else (c :: t) :: ts

/-- The tokenization performed by the `while(std::getline(pstream, numberstring, ','))`
loop of LineFilter::setParams: tokens separated by commas, except that an empty
input yields no token and a trailing comma does not yield a trailing empty token
(getline fails at end-of-stream before extracting anything). -/
def getlineTokens (cs : List Char) : List (List Char) :=
  if cs = [] then []
  else if cs.getLast? = some commaChar then (splitAtCommas cs).dropLast
  else splitAtCommas cs

def digitsToNat (ds : List Char) : Nat :=
  ds.foldl (fun a c => a * 10 + (c.toNat - 48)) 0

/-- Modelled from the spec: `linenumber_t` and its stream extraction operator come
from a header that is not among the sources. Following the spec's examples
(parameter strings such as "3,7,12"; the token "x" in "3,x,5" is rejected), a token
extracts a line number iff, after skipping leading whitespace, it starts with a
decimal digit; the maximal digit prefix is the value and trailing characters are
ignored, as stream extraction does. -/
def parseLineNumberToken (tok : List Char) : Option Nat :=
  let cs := tok.dropWhile Char.isWhitespace
  let ds := cs.takeWhile Char.isDigit
  if ds = [] then none else some (digitsToNat ds)

/-- Result of LineFilter::setParams: the returned bool, the filter's `linenumbers`
member after the call, and the error message written to `errmsg` (none when the
call leaves `errmsg` untouched). -/
structure SetParamsResult where
  ok : Bool
  linenumbers : List Nat
  errmsg : Option String
deriving DecidableEq

/-- The token loop of LineFilter::setParams: each token is parsed and appended to
the member list; an unparseable token clears the whole list, writes the error
message and returns false; after the loop, an empty list is an error. -/
def LineFilter.setParamsGo (acc : List Nat) : List (List Char) → SetParamsResult
  | [] =>
    if acc = [] then SetParamsResult.mk false acc (some msgNoLinenumbers)
    else SetParamsResult.mk true acc none
  | tok :: rest =>
    match parseLineNumberToken tok with
    | none => SetParamsResult.mk false [] (some (msgNotANumberPrefix ++ String.mk tok))
    | some n => LineFilter.setParamsGo (acc ++ [n]) rest

/-- LineFilter::setParams (filter.cc lines 36-68). `linenumbers` is the member list
before the call (the source never clears it on entry, so a prior state is visible). -/
def LineFilter.setParams (linenumbers : List Nat) (params : String) : SetParamsResult :=
  LineFilter.setParamsGo linenumbers (getlineTokens params.data)

/-- The Filter class hierarchy as a tagged variant: LineFilter carries its parsed
line numbers; the regex variants hold no observable matcher state in the sources
(their pattern handling is stubbed). -/
inductive Filter
  | line (linenumbers : List Nat)
  | descriptionRegex
  | contentRegex
deriving DecidableEq

/-- Virtual dispatch of Filter::match. -/
def Filter.matchChunk : Filter → Chunk → Bool
  | Filter.line ns, c => LineFilter.matchChunk ns c
  | Filter.descriptionRegex, c => DescriptionRegexFilter.matchChunk c
  | Filter.contentRegex, c => ContentRegexFilter.matchChunk c

/-- FilterChain::match (filter.cc lines 16-25): false as soon as one filter does
not match, true otherwise. -/
def FilterChain.matchChunk (filters : List Filter) (chunk : Chunk) : Bool :=
  filters.all (fun f => f.matchChunk chunk)

/- ------------------------------------------------------------------ -/
/- Execution engine (db.cc)                                            -/
/- ------------------------------------------------------------------ -/

/-- A thrown DbException, carrying its message. -/
structure DbException where
  msg : String
deriving DecidableEq

/-- Outcome of one PQexec call made by executeSql, as reported by the database:
success, a NULL result pointer, or a fatal/nonfatal error result with its primary
message. -/
inductive ExecOutcome
  | success
  | pqexecNull
  | pgError (msg_primary : String)
deriving DecidableEq

/-- executeSql (db.cc lines 210-246): throws on a NULL result or an error result
(building the message from the statement text and the primary error message),
returns unit otherwise. -/
def executeSql (out : ExecOutcome) (sqlstr : String) : Except DbException Unit :=
  match out with
  | ExecOutcome.success => Except.ok Unit.unit
  | ExecOutcome.pqexecNull => Except.error (DbException.mk msgPQExecFailed)
  | ExecOutcome.pgError m =>
    Except.error (DbException.mk (couldNotExecutePrefix ++ sqlstr ++ couldNotExecuteMid ++ m))

/-- The engine state: connection usability (PQstatus == CONNECTION_OK), the
do_commit policy flag, the failed chunk counter and the open-transaction flag. -/
structure DbState where
  connected : Bool
  do_commit : Bool
  failed_count : Nat
  in_transaction : Bool
deriving DecidableEq

/-- Db::Db (db.cc lines 39-42): conn NULL (so not connected), do_commit false,
failed_count 0, in_transaction false. -/
def Db.init : DbState :=
  DbState.mk false false 0 false

/-- Db::connect (db.cc lines 50-55): attempts the login and reports isConnected;
whether the login produced a usable connection is supplied by the environment. -/
def Db.connect (st : DbState) (connOk : Bool) : DbState × Bool :=
  (DbState.mk connOk st.do_commit st.failed_count st.in_transaction, connOk)

/-- PQresultStatus values distinguished by the source. -/
inductive PgStatus
  | commandOk
  | tuplesOk
  | fatalError
  | nonfatalError
  | otherStatus
deriving DecidableEq

/-- A non-NULL PGresult for the chunk's own SQL: its status and the optional
error fields read via PQresultErrorField (none models a NULL field pointer).
statement_position is the value atoi produces from PG_DIAG_STATEMENT_POSITION. -/
structure PgResult where
  status : PgStatus
  statement_position : Option Nat
  sqlstate : Option String
  msg_primary : Option String
  msg_detail : Option String
  msg_hint : Option String
deriving DecidableEq

/-- Environment of one runChunk call: outcomes of the internal executeSql calls
(begin, savepoint, and the closing release/rollback-to-savepoint), the two
gettimeofday calls, and the PGresult of the chunk's SQL (none models a NULL
result pointer from PQexec). -/
structure RunEnv where
  beginExec : ExecOutcome
  savepointExec : ExecOutcome
  finishExec : ExecOutcome
  clockStartOk : Bool
  clockEndOk : Bool
  clockErr : String
  start_time : Timeval
  end_time : Timeval
  queryResult : Option PgResult
deriving DecidableEq

/-- Db::begin (db.cc lines 249-256): lazily opens the outer transaction. Returns
the new state and the SQL issued. -/
def Db.begin (st : DbState) (out : ExecOutcome) : Except DbException (DbState × List String) :=
  if st.in_transaction then Except.ok (st, [])
  else
    match executeSql out sqlBegin with
    | Except.error e => Except.error e
    | Except.ok _ =>
      Except.ok (DbState.mk st.connected st.do_commit st.failed_count true, [sqlBegin])

/-- The error-reporting block of Db::runChunk (db.cc lines 143-181): set status to
Fail, translate PG_DIAG_STATEMENT_POSITION to an absolute line when it lies inside
the SQL text (log and leave error_line untouched when it is beyond the text; set
the not-available sentinel when the field is absent), and copy the error fields
that are present. Returns the updated chunk and the log lines produced. -/
def applyError (chunk : Chunk) (sql : String) (pgres : PgResult) : Chunk × List String :=
  let d0 := { chunk.diagnostics with status := Diagnostics.Status.Fail }
  let pair :=
    match pgres.statement_position with
    | some pos =>
      if pos < sql.length then
        ({ d0 with error_line := some (chunk.start_line + (sql.data.take pos).count newlineChar) },
          ([] : List String))
      else (d0, [logPosBeyond])
    | none => ({ d0 with error_line := none }, [logEmptyPos])
  let d2 := { pair.1 with
    sqlstate := pgres.sqlstate.getD pair.1.sqlstate,
    msg_primary := pgres.msg_primary.getD pair.1.msg_primary,
    msg_detail := pgres.msg_detail.getD pair.1.msg_detail,
    msg_hint := pgres.msg_hint.getD pair.1.msg_hint }
  ({ chunk with diagnostics := d2 }, pair.2)

/-- Result of a non-throwing runChunk call: the returned bool, the chunk with its
diagnostics filled in, the new engine state, the SQL statements sent over the
connection, and the log lines of the error-position handling. -/
structure RunResult where
  ok : Bool
  chunk : Chunk
  st : DbState
  issued : List String
  logs : List String
deriving DecidableEq

/-- Db::runChunk (db.cc lines 103-194), translated step by step: connection guard,
lazy begin, optimistic Ok status, start clock, savepoint, PQexec of the chunk SQL,
end clock and runtime, error-field population on a fatal/nonfatal result, then
rollback-to-savepoint plus failed_count increment on failure or savepoint release
on success, returning whether the status is still Ok. The source guards the two
closing branches with `status != Diagnostics::Ok`; that test is expressed here as
the positive equality with the two branches exchanged. -/
def Db.runChunk (st0 : DbState) (chunk0 : Chunk) (env : RunEnv) : Except DbException RunResult :=
  if st0.connected = false then Except.error (DbException.mk msgLostConnection)
  else
    match Db.begin st0 env.beginExec with
    | Except.error e => Except.error e
    | Except.ok (st, issued0) =>
      let sql := chunk0.sql
      let chunk1 :=
        { chunk0 with diagnostics := { chunk0.diagnostics with status := Diagnostics.Status.Ok } }
      if env.clockStartOk = false then Except.error (DbException.mk env.clockErr)
      else
        match executeSql env.savepointExec sqlSavepoint with
        | Except.error e => Except.error e
        | Except.ok _ =>
          let issued1 := issued0 ++ [sqlSavepoint]
          match env.queryResult with
          | none => Except.error (DbException.mk msgPQExecFailed)
          | some pgres =>
            let issued2 := issued1 ++ [sql]
            if env.clockEndOk = false then Except.error (DbException.mk env.clockErr)
            else
              let chunk2 :=
                { chunk1 with diagnostics := { chunk1.diagnostics with
                    runtime := (timeval_subtract env.end_time env.start_time).1 } }
              let errPair :=
                if pgres.status = PgStatus.fatalError ∨ pgres.status = PgStatus.nonfatalError then
                  applyError chunk2 sql pgres
                else (chunk2, [])
              if errPair.1.diagnostics.status = Diagnostics.Status.Ok then
                match executeSql env.finishExec sqlReleaseSavepoint with
                | Except.error e => Except.error e
                | Except.ok _ =>
                  Except.ok (RunResult.mk
                    (decide (errPair.1.diagnostics.status = Diagnostics.Status.Ok))
                    errPair.1 st (issued2 ++ [sqlReleaseSavepoint]) errPair.2)
              else
                match executeSql env.finishExec sqlRollbackSavepoint with
                | Except.error e => Except.error e
                | Except.ok _ =>
                  Except.ok (RunResult.mk
                    (decide (errPair.1.diagnostics.status = Diagnostics.Status.Ok))
                    errPair.1
                    (DbState.mk st.connected st.do_commit (st.failed_count + 1) st.in_transaction)
                    (issued2 ++ [sqlRollbackSavepoint]) errPair.2)

/-- Db::rollback (db.cc lines 273-280): issues "rollback;" and closes the flag
when a transaction is open, otherwise a no-op. The outcome of the underlying
executeSql is not modelled here; the claims concern the decision and the issued
statement. -/
def Db.rollback (st : DbState) : DbState × List String :=
  if st.in_transaction then
    (DbState.mk st.connected st.do_commit st.failed_count false, [sqlRollback])
  else (st, [])

/-- Db::commit (db.cc lines 259-270): without the do_commit flag it delegates to
rollback; otherwise it issues "commit;" when a transaction is open. -/
def Db.commit (st : DbState) : DbState × List String :=
  if st.do_commit = false then Db.rollback st
  else if st.in_transaction then
    (DbState.mk st.connected st.do_commit st.failed_count false, [sqlCommit])
  else (st, [])

/-- Db::finish (db.cc lines 197-207): rollback when any chunk failed, otherwise
the commit decision; failed_count is reset afterwards. -/
def Db.finish (st : DbState) : DbState × List String :=
  let pair := if st.failed_count > 0 then Db.rollback st else Db.commit st
  (DbState.mk pair.1.connected pair.1.do_commit 0 pair.1.in_transaction, pair.2)

/-- Environment of one Db::cancel call: whether PQgetCancel returned a handle,
whether PQcancel returned 1, and the buffer contents PQcancel left on failure. -/
structure CancelEnv where
  getCancelOk : Bool
  cancelDelivered : Bool
  cancelErr : String
deriving DecidableEq

/-- Db::cancel (db.cc lines 283-309): true with errmsg untouched when there is no
usable connection; false with errmsg untouched when no cancel handle could be
obtained; false with the buffer copied into errmsg when the cancel request could
not be delivered; true otherwise. -/
def Db.cancel (connected : Bool) (env : CancelEnv) (errmsg : String) : Bool × String :=
  if connected = false then (true, errmsg)
  else if env.getCancelOk = false then (false, errmsg)
  else if env.cancelDelivered then (true, errmsg)
  else (false, env.cancelErr)

/-- Runs a list of chunks in order, each with its environment, collecting the
per-chunk return values; stops at the first thrown exception, as a caller loop
around Db::runChunk would. -/
def Db.runChunks (st : DbState) : List (Chunk × RunEnv) → Except DbException (DbState × List Bool)
  | [] => Except.ok (st, [])
  | item :: rest =>
    match Db.runChunk st item.1 item.2 with
    | Except.error e => Except.error e
    | Except.ok r =>
      match Db.runChunks r.st rest with
      | Except.error e => Except.error e
      | Except.ok (stFinal, oks) => Except.ok (stFinal, r.ok :: oks)

/- ------------------------------------------------------------------ -/
/- Concrete fixtures used by examples and witnesses                    -/
/- ------------------------------------------------------------------ -/

/-- Diagnostics of a chunk that has not run yet. -/
def dInit : Diagnostics :=
  Diagnostics.mk Diagnostics.Status.NotRun (Timeval.mk 0 0) none emptyStr emptyStr emptyStr emptyStr

/-- A chunk occupying the given line range, with irrelevant text fields. -/
def mkChunk (s e : Nat) : Chunk :=
  Chunk.mk s e emptyStr emptyStr dInit

/-- The spec's error-line example text. -/
def c4sql : String := "select 1;\nselct 2;\n"

def sqlstateSyntax : String := "42601"

def msgSyntaxError : String := "syntax error"

/-- Engine state right after a successful connect on a fresh Db. -/
def stConn : DbState := DbState.mk true false 0 false

/-- A chunk at lines 1-2 holding the example SQL. -/
def cChunk : Chunk := Chunk.mk 1 2 c4sql emptyStr dInit

/-- The spec's error-line example chunk: start_line 10. -/
def c4chunk : Chunk := Chunk.mk 10 12 c4sql emptyStr dInit

def resOk : PgResult := PgResult.mk PgStatus.tuplesOk none none none none none

/-- A fatal error result whose statement position points into the second line of
the example SQL. -/
def resFail : PgResult :=
  PgResult.mk PgStatus.fatalError (some 12) (some sqlstateSyntax) (some msgSyntaxError) none none

/-- A fatal error result whose statement position lies beyond the example SQL. -/
def resBeyond : PgResult := PgResult.mk PgStatus.fatalError (some 99) none none none none

/-- A fatal error result carrying no statement position. -/
def resNoPos : PgResult := PgResult.mk PgStatus.fatalError none none none none none

/-- A runChunk environment whose internal statements and clock calls all succeed,
with the borrow-example timestamps, around the given query result. -/
def plumbingOk (q : Option PgResult) : RunEnv :=
  RunEnv.mk ExecOutcome.success ExecOutcome.success ExecOutcome.success true true emptyStr
    (Timeval.mk 5 900000) (Timeval.mk 6 100000) q

def envOkC : RunEnv := plumbingOk (some resOk)

def envFailC : RunEnv := plumbingOk (some resFail)

def envBeyondC : RunEnv := plumbingOk (some resBeyond)

def envNoPosC : RunEnv := plumbingOk (some resNoPos)

/- ------------------------------------------------------------------ -/
/- Claims                                                              -/
/- ------------------------------------------------------------------ -/

lemma tdiv_small_eq_zero (a : Int) (h0 : 0 ≤ a) (h1 : a < 1000000) :
    Int.tdiv a 1000000 = 0 := by
  rw [Int.tdiv_eq_ediv h0 (by norm_num)]
  exact Int.ediv_eq_zero_of_lt h0 h1

/-- With well-formed microsecond fields, timeval_subtract reduces to a plain
borrow-corrected subtraction. -/
lemma timeval_subtract_closed_form (x y : Timeval)
    (hx0 : 0 ≤ x.tv_usec) (hx1 : x.tv_usec < 1000000)
    (hy0 : 0 ≤ y.tv_usec) (hy1 : y.tv_usec < 1000000) :
    (timeval_subtract x y).1 =
      if x.tv_usec < y.tv_usec then
        Timeval.mk (x.tv_sec - y.tv_sec - 1) (x.tv_usec - y.tv_usec + 1000000)
      else Timeval.mk (x.tv_sec - y.tv_sec) (x.tv_usec - y.tv_usec) := by
  by_cases h1 : x.tv_usec < y.tv_usec
  · have hd1 : Int.tdiv (y.tv_usec - x.tv_usec) 1000000 = 0 :=
      tdiv_small_eq_zero _ (by omega) (by omega)
    simp only [timeval_subtract, if_pos h1, hd1]
    split_ifs with h2
    · exfalso
      omega
    · simp only [Timeval.mk.injEq]
      constructor <;> omega
  · have h2 : ¬ (x.tv_usec - y.tv_usec > 1000000) := by omega
    simp only [timeval_subtract, if_neg h1, if_neg h2]

/-- C6: for timestamps with well-formed independent second/microsecond fields where
the end is not earlier than the start, timeval_subtract yields the exact difference
in microseconds, non-negative and with a normalized sub-second part; in particular
start (5s, 900000us) and end (6s, 100000us) give (0s, 200000us), not a negative
value. -/
theorem C6_timeval_subtract_exact :
    (∀ x y : Timeval,
      0 ≤ x.tv_usec → x.tv_usec < 1000000 →
      0 ≤ y.tv_usec → y.tv_usec < 1000000 →
      (y.tv_sec < x.tv_sec ∨ (y.tv_sec = x.tv_sec ∧ y.tv_usec ≤ x.tv_usec)) →
      (timeval_subtract x y).1.tv_sec * 1000000 + (timeval_subtract x y).1.tv_usec =
          (x.tv_sec * 1000000 + x.tv_usec) - (y.tv_sec * 1000000 + y.tv_usec) ∧
        0 ≤ (timeval_subtract x y).1.tv_sec ∧
        0 ≤ (timeval_subtract x y).1.tv_usec ∧
        (timeval_subtract x y).1.tv_usec < 1000000) ∧
    timeval_subtract (Timeval.mk 6 100000) (Timeval.mk 5 900000) =
      (Timeval.mk 0 200000, false) := by
  constructor
  · intro x y hx0 hx1 hy0 hy1 hord
    rw [timeval_subtract_closed_form x y hx0 hx1 hy0 hy1]
    by_cases h1 : x.tv_usec < y.tv_usec
    · simp only [if_pos h1]
      refine ⟨by omega, by omega, by omega, by omega⟩
    · simp only [if_neg h1]
      refine ⟨by omega, by omega, by omega, by omega⟩
  · decide

/-- Witness for C6: the general statement applied at the spec's borrow example. -/
theorem C6_witness :
    (timeval_subtract (Timeval.mk 6 100000) (Timeval.mk 5 900000)).1.tv_sec * 1000000 +
        (timeval_subtract (Timeval.mk 6 100000) (Timeval.mk 5 900000)).1.tv_usec =
      ((6 : Int) * 1000000 + 100000) - ((5 : Int) * 1000000 + 900000) ∧
    0 ≤ (timeval_subtract (Timeval.mk 6 100000) (Timeval.mk 5 900000)).1.tv_sec ∧
    0 ≤ (timeval_subtract (Timeval.mk 6 100000) (Timeval.mk 5 900000)).1.tv_usec ∧
    (timeval_subtract (Timeval.mk 6 100000) (Timeval.mk 5 900000)).1.tv_usec < 1000000 :=
  C6_timeval_subtract_exact.1 (Timeval.mk 6 100000) (Timeval.mk 5 900000)
    (by decide) (by decide) (by decide) (by decide) (Or.inl (by decide))

lemma lineFilter_matchChunk_eq_true (ns : List Nat) (c : Chunk) :
    LineFilter.matchChunk ns c = true ↔ ∃ n ∈ ns, c.start_line ≤ n ∧ n ≤ c.end_line := by
  simp [LineFilter.matchChunk, List.any_eq_true, ge_iff_le]

/-- C7: LineFilter::match is true iff some stored line number lies in the chunk's
inclusive line range; with targets consisting of 5 it matches the range 3..7 and
not the range 8..10. -/
theorem C7_lineFilter_range :
    (∀ (ns : List Nat) (c : Chunk),
      LineFilter.matchChunk ns c = true ↔ ∃ n ∈ ns, c.start_line ≤ n ∧ n ≤ c.end_line) ∧
    LineFilter.matchChunk [5] (mkChunk 3 7) = true ∧
    LineFilter.matchChunk [5] (mkChunk 8 10) = false :=
  ⟨lineFilter_matchChunk_eq_true, by decide, by decide⟩

lemma filterChain_matchChunk_eq_true (fs : List Filter) (c : Chunk) :
    FilterChain.matchChunk fs c = true ↔ ∀ f ∈ fs, f.matchChunk c = true := by
  simp [FilterChain.matchChunk, List.all_eq_true]

/-- C8: FilterChain::match is the AND of its members: true iff every contained
filter matches, so the empty chain matches every chunk, and a chain containing a
filter that matches nothing matches no chunk. -/
theorem C8_filterChain_conjunction :
    (∀ (fs : List Filter) (c : Chunk),
      FilterChain.matchChunk fs c = true ↔ ∀ f ∈ fs, f.matchChunk c = true) ∧
    (∀ c : Chunk, FilterChain.matchChunk [] c = true) ∧
    (∀ f : Filter, (∀ c : Chunk, f.matchChunk c = false) →
      ∀ (fs : List Filter) (c : Chunk), f ∈ fs → FilterChain.matchChunk fs c = false) := by
  refine ⟨filterChain_matchChunk_eq_true, fun c => rfl, ?_⟩
  intro f hnever fs c hmem
  cases hb : FilterChain.matchChunk fs c
  · rfl
  · have hf := (filterChain_matchChunk_eq_true fs c).1 hb f hmem
    rw [hnever c] at hf
    simp at hf

/-- Witness for C8: a chain holding a line filter with no stored numbers (which
matches nothing) plus another filter matches no chunk. -/
theorem C8_witness :
    FilterChain.matchChunk [Filter.line [], Filter.contentRegex] (mkChunk 3 7) = false :=
  C8_filterChain_conjunction.2.2 (Filter.line []) (fun _ => rfl)
    [Filter.line [], Filter.contentRegex] (mkChunk 3 7) (by simp)

lemma setParamsGo_fail (toks : List (List Char)) :
    ∀ acc, (LineFilter.setParamsGo acc toks).ok = false →
      (LineFilter.setParamsGo acc toks).linenumbers = [] ∧
      (LineFilter.setParamsGo acc toks).errmsg ≠ none := by
  induction toks with
  | nil =>
    intro acc h
    by_cases ha : acc = []
    · simp [LineFilter.setParamsGo, ha]
    · simp [LineFilter.setParamsGo, ha] at h
  | cons tok rest ih =>
    intro acc h
    cases hp : parseLineNumberToken tok with
    | none => simp [LineFilter.setParamsGo, hp]
    | some n =>
      have hgo : LineFilter.setParamsGo acc (tok :: rest) =
          LineFilter.setParamsGo (acc ++ [n]) rest := by
        simp [LineFilter.setParamsGo, hp]
      rw [hgo] at h ⊢
      exact ih (acc ++ [n]) h

/-- C3 (amended): a LineFilter whose parameters were never successfully parsed
(empty stored list) matches no chunk, and a failing setParams on such a filter
returns false, writes the error message and leaves the stored list empty, so the
filter still matches nothing; the regex filter variants, however, are stubbed in
the source: their setParams always reports success and their match always returns
true, for any chunk, whether or not parameters were ever parsed. -/
theorem C3_filters_fail_closed :
    (∀ c : Chunk, LineFilter.matchChunk [] c = false) ∧
    (∀ params : String, (LineFilter.setParams [] params).ok = false →
      (LineFilter.setParams [] params).linenumbers = [] ∧
      (LineFilter.setParams [] params).errmsg ≠ none ∧
      ∀ c : Chunk,
        LineFilter.matchChunk (LineFilter.setParams [] params).linenumbers c = false) ∧
    (∀ params : String, RegexFilter.setParams params = true) ∧
    (∀ c : Chunk, DescriptionRegexFilter.matchChunk c = true) ∧
    (∀ c : Chunk, ContentRegexFilter.matchChunk c = true) := by
  refine ⟨fun c => rfl, ?_, fun params => rfl, fun c => rfl, fun c => rfl⟩
  intro params h
  have hfail := setParamsGo_fail (getlineTokens params.data) [] h
  refine ⟨hfail.1, hfail.2, ?_⟩
  intro c
  have h1 : (LineFilter.setParams [] params).linenumbers = [] := hfail.1
  rw [h1]
  rfl

/-- Witness for C3: the spec's example parameter string "3,x,5" makes setParams on
a fresh line filter fail with the stored list empty and an error message written,
leaving a filter that matches nothing. -/
theorem C3_witness :
    (LineFilter.setParams [] "3,x,5").linenumbers = [] ∧
    (LineFilter.setParams [] "3,x,5").errmsg ≠ none ∧
    ∀ c : Chunk,
      LineFilter.matchChunk (LineFilter.setParams [] "3,x,5").linenumbers c = false :=
  C3_filters_fail_closed.2.1 "3,x,5" (by decide)

/-- Counterexample for C3 as frozen: it demands that every filter variant whose
parameters were never successfully parsed match nothing, but a ContentRegexFilter
with no parsed parameters matches a chunk (RegexFilter::matchString is stubbed to
return true). -/
theorem C3_counterexample :
    ContentRegexFilter.matchChunk (mkChunk 3 7) = true :=
  rfl

/-- C9: Db::cancel with no usable connection returns true and leaves the error
message untouched; with a live connection, when the cancellation request cannot be
delivered (PQcancel does not return 1), it returns false and copies the
database-supplied reason into the error message. -/
theorem C9_cancel_no_connection_and_failure (env : CancelEnv) (errmsg : String) :
    Db.cancel false env errmsg = (true, errmsg) ∧
    (env.getCancelOk = true → env.cancelDelivered = false →
      Db.cancel true env errmsg = (false, env.cancelErr)) := by
  constructor
  · rfl
  · intro hg hd
    simp [Db.cancel, hg, hd]

/-- Witness for C9: concrete cancel environments for both conjuncts. -/
theorem C9_witness :
    Db.cancel false (CancelEnv.mk true true emptyStr) emptyStr = (true, emptyStr) ∧
    Db.cancel true (CancelEnv.mk true false msgPQExecFailed) emptyStr =
      (false, (CancelEnv.mk true false msgPQExecFailed).cancelErr) :=
  ⟨(C9_cancel_no_connection_and_failure (CancelEnv.mk true true emptyStr) emptyStr).1,
    (C9_cancel_no_connection_and_failure (CancelEnv.mk true false msgPQExecFailed) emptyStr).2
      rfl rfl⟩

/-- C1: with an open outer transaction, Db::finish rolls it back whenever any chunk
failed since the last finish, regardless of do_commit; with no failures it commits
iff do_commit is set and rolls back otherwise; and failed_count is reset to 0 in
every case. -/
theorem C1_finish_policy (st : DbState) (hin : st.in_transaction = true) :
    (st.failed_count > 0 →
      Db.finish st = (DbState.mk st.connected st.do_commit 0 false, [sqlRollback])) ∧
    (st.failed_count = 0 → st.do_commit = true →
      Db.finish st = (DbState.mk st.connected st.do_commit 0 false, [sqlCommit])) ∧
    (st.failed_count = 0 → st.do_commit = false →
      Db.finish st = (DbState.mk st.connected st.do_commit 0 false, [sqlRollback])) ∧
    (Db.finish st).1.failed_count = 0 := by
  refine ⟨?_, ?_, ?_, ?_⟩
  · intro hf
    simp [Db.finish, Db.rollback, hf, hin]
  · intro hf hc
    simp [Db.finish, Db.commit, hf, hc, hin]
  · intro hf hc
    simp [Db.finish, Db.commit, Db.rollback, hf, hc, hin]
  · simp [Db.finish]

/-- Witness for C1: the three policy combinations at concrete states. -/
theorem C1_witness :
    Db.finish (DbState.mk true true 2 true) = (DbState.mk true true 0 false, [sqlRollback]) ∧
    Db.finish (DbState.mk true true 0 true) = (DbState.mk true true 0 false, [sqlCommit]) ∧
    Db.finish (DbState.mk true false 0 true) = (DbState.mk true false 0 false, [sqlRollback]) :=
  ⟨(C1_finish_policy (DbState.mk true true 2 true) rfl).1 (by decide),
    (C1_finish_policy (DbState.mk true true 0 true) rfl).2.1 rfl rfl,
    (C1_finish_policy (DbState.mk true false 0 true) rfl).2.2.1 rfl rfl⟩

lemma applyError_status (chunk : Chunk) (sql : String) (pgres : PgResult) :
    (applyError chunk sql pgres).1.diagnostics.status = Diagnostics.Status.Fail := by
  unfold applyError
  cases pgres.statement_position with
  | none => simp
  | some pos => by_cases h : pos < sql.length <;> simp [h]

lemma applyError_error_line (chunk : Chunk) (sql : String) (pgres : PgResult) :
    (applyError chunk sql pgres).1.diagnostics.error_line =
      match pgres.statement_position with
      | some pos =>
        if pos < sql.length then some (chunk.start_line + (sql.data.take pos).count newlineChar)
        else chunk.diagnostics.error_line
      | none => none := by
  unfold applyError
  cases pgres.statement_position with
  | none => simp
  | some pos => by_cases h : pos < sql.length <;> simp [h]

lemma applyError_logs (chunk : Chunk) (sql : String) (pgres : PgResult) :
    (applyError chunk sql pgres).2 =
      match pgres.statement_position with
      | some pos => if pos < sql.length then [] else [logPosBeyond]
      | none => [logEmptyPos] := by
  unfold applyError
  cases pgres.statement_position with
  | none => simp
  | some pos => by_cases h : pos < sql.length <;> simp [h]

lemma runChunk_fail_case (st : DbState) (chunk : Chunk) (env : RunEnv) (res : PgResult)
    (hconn : st.connected = true)
    (hbegin : env.beginExec = ExecOutcome.success)
    (hsave : env.savepointExec = ExecOutcome.success)
    (hfin : env.finishExec = ExecOutcome.success)
    (hcs : env.clockStartOk = true) (hce : env.clockEndOk = true)
    (hq : env.queryResult = some res)
    (hst : res.status = PgStatus.fatalError ∨ res.status = PgStatus.nonfatalError) :
    ∃ r, Db.runChunk st chunk env = Except.ok r ∧ r.ok = false ∧
      r.chunk = (applyError
        { chunk with diagnostics := { chunk.diagnostics with
            status := Diagnostics.Status.Ok,
            runtime := (timeval_subtract env.end_time env.start_time).1 } } chunk.sql res).1 ∧
      r.st.failed_count = st.failed_count + 1 ∧
      sqlRollbackSavepoint ∈ r.issued ∧
      r.logs = (applyError
        { chunk with diagnostics := { chunk.diagnostics with
            status := Diagnostics.Status.Ok,
            runtime := (timeval_subtract env.end_time env.start_time).1 } } chunk.sql res).2 := by
  by_cases ht : st.in_transaction
  · simp only [Db.runChunk, Db.begin, executeSql, hconn, hbegin, hsave, hfin, hcs, hce, hq, ht]
    simp [hst, applyError_status]
  · simp only [Db.runChunk, Db.begin, executeSql, hconn, hbegin, hsave, hfin, hcs, hce, hq, ht]
    simp [hst, applyError_status]

lemma runChunk_success_case (st : DbState) (chunk : Chunk) (env : RunEnv) (res : PgResult)
    (hconn : st.connected = true)
    (hbegin : env.beginExec = ExecOutcome.success)
    (hsave : env.savepointExec = ExecOutcome.success)
    (hfin : env.finishExec = ExecOutcome.success)
    (hcs : env.clockStartOk = true) (hce : env.clockEndOk = true)
    (hq : env.queryResult = some res)
    (hst1 : res.status ≠ PgStatus.fatalError) (hst2 : res.status ≠ PgStatus.nonfatalError) :
    ∃ r, Db.runChunk st chunk env = Except.ok r ∧ r.ok = true ∧
      r.chunk.diagnostics.status = Diagnostics.Status.Ok ∧
      r.st.failed_count = st.failed_count ∧
      sqlReleaseSavepoint ∈ r.issued := by
  by_cases ht : st.in_transaction
  · simp only [Db.runChunk, Db.begin, executeSql, hconn, hbegin, hsave, hfin, hcs, hce, hq, ht]
    simp [hst1, hst2]
  · simp only [Db.runChunk, Db.begin, executeSql, hconn, hbegin, hsave, hfin, hcs, hce, hq, ht]
    simp [hst1, hst2]

lemma runChunk_ok_state (st : DbState) (c : Chunk) (env : RunEnv) (r : RunResult)
    (h : Db.runChunk st c env = Except.ok r) :
    r.st.connected = st.connected ∧ r.st.do_commit = st.do_commit ∧
    r.st.in_transaction = true ∧
    (r.ok = true → r.st.failed_count = st.failed_count) := by
  by_cases hc : st.connected = false
  · rw [Db.runChunk, if_pos hc] at h
    exact absurd h (by simp)
  · rcases hq : env.queryResult with _ | res
    · by_cases ht : st.in_transaction <;>
        cases hb : env.beginExec <;>
        cases hcs : env.clockStartOk <;>
        cases hs : env.savepointExec <;>
        simp_all [Db.runChunk, Db.begin, executeSql]
    · by_cases hOr : res.status = PgStatus.fatalError ∨ res.status = PgStatus.nonfatalError <;>
        by_cases ht : st.in_transaction <;>
        cases hb : env.beginExec <;>
        cases hcs : env.clockStartOk <;>
        cases hs : env.savepointExec <;>
        cases hce : env.clockEndOk <;>
        cases hf : env.finishExec <;>
        simp_all [Db.runChunk, Db.begin, executeSql, applyError_status] <;>
        (try subst h) <;>
        simp_all

lemma runChunks_all_ok_state (items : List (Chunk × RunEnv)) :
    ∀ st stF oks, Db.runChunks st items = Except.ok (stF, oks) →
      (∀ b ∈ oks, b = true) →
      stF.connected = st.connected ∧ stF.do_commit = st.do_commit ∧
      stF.failed_count = st.failed_count ∧ (items ≠ [] → stF.in_transaction = true) := by
  induction items with
  | nil =>
    intro st stF oks h hall
    simp [Db.runChunks] at h
    obtain ⟨h1, h2⟩ := h
    subst h1
    simp
  | cons item rest ih =>
    intro st stF oks h hall
    simp only [Db.runChunks] at h
    split at h
    · exact absurd h (by simp)
    · rename_i r hr
      split at h
      · exact absurd h (by simp)
      · rename_i stR oksR hrest
        simp only [Except.ok.injEq, Prod.mk.injEq] at h
        obtain ⟨h1, h2⟩ := h
        subst h1
        have hrState := runChunk_ok_state st item.1 item.2 r hr
        have hok : r.ok = true := by
          apply hall
          rw [← h2]
          exact List.mem_cons_self _ _
        have hrestAll : ∀ b ∈ oksR, b = true := by
          intro b hb
          apply hall
          rw [← h2]
          exact List.mem_cons_of_mem _ hb
        have hih := ih r.st stR oksR hrest hrestAll
        refine ⟨by rw [hih.1, hrState.1], by rw [hih.2.1, hrState.2.1], ?_, ?_⟩
        · rw [hih.2.2.1, hrState.2.2.2 hok]
        · intro _
          cases rest with
          | nil =>
            simp [Db.runChunks] at hrest
            rw [← hrest.1]
            exact hrState.2.2.1
          | cons b bs => exact hih.2.2.2 (by simp)

/-- C2: when the engine plumbing (connection, begin, savepoint handling, clock)
works, a chunk whose SQL the database rejects with a fatal or nonfatal error does
not make runChunk throw: the chunk's status becomes Fail, a rollback to the chunk
savepoint is issued, failed_count grows by exactly one and false is returned; a
chunk whose SQL succeeds gets its savepoint released, leaves failed_count
unchanged, and true is returned. -/
theorem C2_runChunk_chunk_failure (st : DbState) (chunk : Chunk) (env : RunEnv) (res : PgResult)
    (hconn : st.connected = true)
    (hbegin : env.beginExec = ExecOutcome.success)
    (hsave : env.savepointExec = ExecOutcome.success)
    (hfin : env.finishExec = ExecOutcome.success)
    (hcs : env.clockStartOk = true) (hce : env.clockEndOk = true)
    (hq : env.queryResult = some res) :
    ((res.status = PgStatus.fatalError ∨ res.status = PgStatus.nonfatalError) →
      ∃ r, Db.runChunk st chunk env = Except.ok r ∧ r.ok = false ∧
        r.chunk.diagnostics.status = Diagnostics.Status.Fail ∧
        r.st.failed_count = st.failed_count + 1 ∧
        sqlRollbackSavepoint ∈ r.issued) ∧
    (res.status ≠ PgStatus.fatalError → res.status ≠ PgStatus.nonfatalError →
      ∃ r, Db.runChunk st chunk env = Except.ok r ∧ r.ok = true ∧
        r.chunk.diagnostics.status = Diagnostics.Status.Ok ∧
        r.st.failed_count = st.failed_count ∧
        sqlReleaseSavepoint ∈ r.issued) := by
  constructor
  · intro hst
    obtain ⟨r, hr, hok, hchunk, hcount, hmem, hlogs⟩ :=
      runChunk_fail_case st chunk env res hconn hbegin hsave hfin hcs hce hq hst
    exact ⟨r, hr, hok, by rw [hchunk]; exact applyError_status _ _ _, hcount, hmem⟩
  · intro h1 h2
    exact runChunk_success_case st chunk env res hconn hbegin hsave hfin hcs hce hq h1 h2

/-- C4: when the database supplies a statement position offset lying inside the
SQL text, runChunk sets error_line to start_line plus the number of newline
characters in the SQL text before that offset (the witness instantiates the
spec's example: start_line 10, offset into the second line, error_line 11). -/
theorem C4_error_line_translation (st : DbState) (chunk : Chunk) (env : RunEnv)
    (res : PgResult) (pos : Nat)
    (hconn : st.connected = true)
    (hbegin : env.beginExec = ExecOutcome.success)
    (hsave : env.savepointExec = ExecOutcome.success)
    (hfin : env.finishExec = ExecOutcome.success)
    (hcs : env.clockStartOk = true) (hce : env.clockEndOk = true)
    (hq : env.queryResult = some res)
    (hst : res.status = PgStatus.fatalError ∨ res.status = PgStatus.nonfatalError)
    (hpos : res.statement_position = some pos)
    (hlen : pos < chunk.sql.length) :
    ∃ r, Db.runChunk st chunk env = Except.ok r ∧
      r.chunk.diagnostics.error_line =
        some (chunk.start_line + (chunk.sql.data.take pos).count newlineChar) := by
  obtain ⟨r, hr, hok, hchunk, hcount, hmem, hlogs⟩ :=
    runChunk_fail_case st chunk env res hconn hbegin hsave hfin hcs hce hq hst
  refine ⟨r, hr, ?_⟩
  rw [hchunk, applyError_error_line, hpos]
  simp [hlen]

/-- C5: when the reported error offset is beyond the SQL text, runChunk returns
normally, leaves error_line untouched and logs the anomaly; when no offset is
supplied at all, error_line is set to the not-available sentinel. -/
theorem C5_error_position_fallbacks (st : DbState) (chunk : Chunk) (env : RunEnv)
    (res : PgResult)
    (hconn : st.connected = true)
    (hbegin : env.beginExec = ExecOutcome.success)
    (hsave : env.savepointExec = ExecOutcome.success)
    (hfin : env.finishExec = ExecOutcome.success)
    (hcs : env.clockStartOk = true) (hce : env.clockEndOk = true)
    (hq : env.queryResult = some res)
    (hst : res.status = PgStatus.fatalError ∨ res.status = PgStatus.nonfatalError) :
    (∀ pos, res.statement_position = some pos → chunk.sql.length ≤ pos →
      ∃ r, Db.runChunk st chunk env = Except.ok r ∧
        r.chunk.diagnostics.error_line = chunk.diagnostics.error_line ∧
        logPosBeyond ∈ r.logs) ∧
    (res.statement_position = none →
      ∃ r, Db.runChunk st chunk env = Except.ok r ∧
        r.chunk.diagnostics.error_line = none) := by
  constructor
  · intro pos hpos hlen
    obtain ⟨r, hr, hok, hchunk, hcount, hmem, hlogs⟩ :=
      runChunk_fail_case st chunk env res hconn hbegin hsave hfin hcs hce hq hst
    have hnlt : ¬ (pos < chunk.sql.length) := by omega
    refine ⟨r, hr, ?_, ?_⟩
    · rw [hchunk, applyError_error_line, hpos]
      simp [hnlt]
    · rw [hlogs, applyError_logs, hpos]
      simp [hnlt]
  · intro hpos
    obtain ⟨r, hr, hok, hchunk, hcount, hmem, hlogs⟩ :=
      runChunk_fail_case st chunk env res hconn hbegin hsave hfin hcs hce hq hst
    refine ⟨r, hr, ?_⟩
    rw [hchunk, applyError_error_line, hpos]

/-- C10: a freshly constructed Db starts with do_commit false, failed_count 0 and
in_transaction false; consequently, after connecting and running any non-empty
all-successful chunk list without ever touching the commit policy flag, finish
still rolls the outer transaction back: dry run is the default. -/
theorem C10_defaults_imply_dry_run :
    Db.init.do_commit = false ∧ Db.init.failed_count = 0 ∧ Db.init.in_transaction = false ∧
    ∀ (connOk : Bool) (items : List (Chunk × RunEnv)) (stF : DbState) (oks : List Bool),
      Db.runChunks (Db.connect Db.init connOk).1 items = Except.ok (stF, oks) →
      (∀ b ∈ oks, b = true) → items ≠ [] →
      Db.finish stF = (DbState.mk stF.connected stF.do_commit 0 false, [sqlRollback]) := by
  refine ⟨rfl, rfl, rfl, ?_⟩
  intro connOk items stF oks h hall hne
  obtain ⟨h1, h2, h3, h4⟩ := runChunks_all_ok_state items _ stF oks h hall
  have hdo : stF.do_commit = false := by simpa [Db.connect, Db.init] using h2
  have hfc : stF.failed_count = 0 := by simpa [Db.connect, Db.init] using h3
  have hit : stF.in_transaction = true := h4 hne
  simp [Db.finish, Db.commit, Db.rollback, hdo, hfc, hit]

/-- Witness for C2: the failure case at a concrete rejected chunk and the success
case at a concrete accepted chunk. -/
theorem C2_witness :
    (∃ r, Db.runChunk stConn c4chunk envFailC = Except.ok r ∧ r.ok = false ∧
      r.chunk.diagnostics.status = Diagnostics.Status.Fail ∧
      r.st.failed_count = stConn.failed_count + 1 ∧
      sqlRollbackSavepoint ∈ r.issued) ∧
    (∃ r, Db.runChunk stConn cChunk envOkC = Except.ok r ∧ r.ok = true ∧
      r.chunk.diagnostics.status = Diagnostics.Status.Ok ∧
      r.st.failed_count = stConn.failed_count ∧
      sqlReleaseSavepoint ∈ r.issued) :=
  ⟨(C2_runChunk_chunk_failure stConn c4chunk envFailC resFail
      rfl rfl rfl rfl rfl rfl rfl).1 (Or.inl rfl),
    (C2_runChunk_chunk_failure stConn cChunk envOkC resOk
      rfl rfl rfl rfl rfl rfl rfl).2 (by decide) (by decide)⟩

/-- Witness for C4: at start_line 10 and the example SQL with reported offset 12
(inside the second line), the error line resolves to 11. -/
theorem C4_witness :
    ∃ r, Db.runChunk stConn c4chunk envFailC = Except.ok r ∧
      r.chunk.diagnostics.error_line = some 11 := by
  obtain ⟨r, hr, hline⟩ := C4_error_line_translation stConn c4chunk envFailC resFail 12
    rfl rfl rfl rfl rfl rfl rfl (Or.inl rfl) rfl (by decide)
  refine ⟨r, hr, ?_⟩
  rw [hline]
  decide

/-- Witness for C5: offset 99 beyond the example SQL leaves error_line untouched
and logs the anomaly; an absent offset sets the not-available sentinel. -/
theorem C5_witness :
    (∃ r, Db.runChunk stConn c4chunk envBeyondC = Except.ok r ∧
      r.chunk.diagnostics.error_line = c4chunk.diagnostics.error_line ∧
      logPosBeyond ∈ r.logs) ∧
    (∃ r, Db.runChunk stConn c4chunk envNoPosC = Except.ok r ∧
      r.chunk.diagnostics.error_line = none) :=
  ⟨(C5_error_position_fallbacks stConn c4chunk envBeyondC resBeyond
      rfl rfl rfl rfl rfl rfl rfl (Or.inl rfl)).1 99 rfl (by decide),
    (C5_error_position_fallbacks stConn c4chunk envNoPosC resNoPos
      rfl rfl rfl rfl rfl rfl rfl (Or.inl rfl)).2 rfl⟩

/-- Witness for C10: a one-chunk all-success run from a freshly constructed and
connected Db ends in a rollback at finish. -/
theorem C10_witness :
    Db.finish (DbState.mk true false 0 true) =
      (DbState.mk true false 0 false, [sqlRollback]) :=
  C10_defaults_imply_dry_run.2.2.2 true [(cChunk, envOkC)]
    (DbState.mk true false 0 true) [true] rfl (by simp) (by simp)

end PsqlChunks
